import Mathlib

/-!
# Verification of the brandi-project temporal catalog and order-ledger engine

Shallow embedding of the data-access layer in `backend/model/order_dao.py`
and the storefront product-list path
(`backend/controller/product_controller.py`, `backend/service/product_service.py`).

Database tables are lists of row structures; each DAO method becomes a pure
function on a `Db` value, returning the updated `Db` together with an
`Except String` result mirroring the Python method's raise/return behaviour.
The cursor's affected-row count is a `Nat`, matching the DB-API contract that
`cursor.execute` returns a non-negative row count.

Timestamps are `Nat`s; the sentinel `'9999-12-31 23:59:59'` used by the SQL
for "currently active" rows is the fixed constant `maxTime`.

The order-placement service that sequences these DAO calls is not among the
source files (only the DAO layer is); where a claim is about the composition,
the composition is modelled from the spec (see the `Modelled from the spec:`
doc comments) while every individual step stays the embedded DAO operation.
-/

/-- The sentinel close time `'9999-12-31 23:59:59'` marking an open-ended
(currently active) temporal fact, as in the SQL of `order_dao.py`. -/
def maxTime : Nat := 253402300799

/-- A row of `products`: catalog identity with soft-delete flag. -/
structure Product where
  product_no : Nat
  is_deleted : Bool
deriving Repr, DecidableEq

/-- A row of `product_details`: the temporal price/discount fact of a product,
valid over `[start_time, close_time]` as interpreted by the SQL joins. -/
structure ProductDetail where
  product_id : Nat
  name : String
  price : Int
  is_activated : Bool
  is_displayed : Bool
  start_time : Nat
  close_time : Nat
  discount_rate : Option Int
  discount_start_date : Option Nat
  discount_end_date : Option Nat
  min_sales_quantity : Int
  max_sales_quantity : Int
deriving Repr, DecidableEq

/-- A row of `product_options`: a (product, color, size) triple with the
materialized `current_quantity` counter. -/
structure ProductOption where
  product_option_no : Nat
  product_id : Nat
  color_id : Nat
  size_id : Nat
  current_quantity : Int
  is_deleted : Bool
deriving Repr, DecidableEq

/-- A row of `quantities`: a temporal stock fact of one option. The payload is
an `Option Int` because the INSERT in `insert_quantities` copies
`product_options.current_quantity` through a subquery that yields NULL when the
option row is absent. -/
structure Quantity where
  quantity_no : Nat
  product_option_id : Nat
  quantity : Option Int
  start_time : Nat
  close_time : Nat
deriving Repr, DecidableEq

/-- A row of `user_shipping_details`: one shipping address per user. -/
structure UserShippingDetail where
  user_id : Nat
  receiver : String
  address : String
  additional_address : String
  zip_code : String
  phone_number : String
deriving Repr, DecidableEq

/-- The shipping fields submitted with an order (`order_info`). -/
structure ShippingFields where
  receiver : String
  address : String
  additional_address : String
  zip_code : String
  phone_number : String
deriving Repr, DecidableEq

/-- A row of `orders_details`. -/
structure OrdersDetail where
  order_detail_no : Nat
  order_id : Nat
  start_time : Nat
  total_price : Int
  delivery_request : String
deriving Repr, DecidableEq

/-- A row of `order_product`: a line item of an order detail. -/
structure OrderProduct where
  order_product_no : Nat
  order_detail_id : Nat
  product_option_id : Nat
  quantity : Int
deriving Repr, DecidableEq

/-- The database state threaded through the DAO calls. `next_quantity_no` is
the auto-increment key of `quantities` (`cursor.lastrowid`). -/
structure Db where
  products : List Product
  product_details : List ProductDetail
  product_options : List ProductOption
  quantities : List Quantity
  user_shipping_details : List UserShippingDetail
  orders_details : List OrdersDetail
  order_product : List OrderProduct
  next_quantity_no : Nat
deriving Repr, DecidableEq

/-- SQL three-valued `t BETWEEN s AND e` as used under `CASE WHEN`: it is
taken only when it evaluates to true, which requires both bounds non-NULL and
`s <= t <= e`; a NULL bound makes the comparison unknown, hence not taken. -/
def sqlBetween (t : Nat) (s e : Option Nat) : Bool :=
  match s, e with
  | some s, some e => s ≤ t && t ≤ e
  | _, _ => false

namespace OrderDao

/-- `OrderDao.get_current_quantity`: reads the materialized counter of a
non-deleted option row (`fetchone` = first matching row). -/
def get_current_quantity (db : Db) (product_option_no : Nat) : Option Int :=
  (db.product_options.find? fun po =>
    po.product_option_no == product_option_no && po.is_deleted == false).map
    (·.current_quantity)

/-- `OrderDao.update_current_quantity`: `UPDATE product_options SET
current_quantity = current_quantity - quantity WHERE product_option_no = X`.
The WHERE clause carries no stock condition and no `is_deleted` filter; the
method raises `"Query Failed"` only under `affected_row < 0`. -/
def update_current_quantity (db : Db) (product_option_no : Nat) (quantity : Int) :
    Db × Except String Nat :=
  let affected_row :=
    (db.product_options.filter fun po => po.product_option_no == product_option_no).length
  let db1 := { db with
    product_options := db.product_options.map fun po =>
      if po.product_option_no == product_option_no then
        { po with current_quantity := po.current_quantity - quantity }
      else po }
  if affected_row < 0 then (db1, .error "Query Failed") else (db1, .ok 1)

/-- `OrderDao.update_quantities`: closes a quantity fact by setting its
`close_time` to the given `start_time` `WHERE quantity_no = origin_quantity_no`.
An absent (`None`) key matches no row (SQL `= NULL`); the method raises
`"Query Failed"` only under `affected_row < 0`. -/
def update_quantities (db : Db) (origin_quantity_no : Option Nat) (start_time : Nat) :
    Db × Except String Nat :=
  let matched := fun (q : Quantity) => origin_quantity_no == some q.quantity_no
  let affected_row := (db.quantities.filter matched).length
  let db1 := { db with
    quantities := db.quantities.map fun q =>
      if matched q then { q with close_time := start_time } else q }
  if affected_row < 0 then (db1, .error "Query Failed") else (db1, .ok 1)

/-- `OrderDao.get_origin_quantity_no`: key of the open-ended
(`close_time = '9999-12-31 23:59:59'`) quantity fact of an option; `fetchone`
yields NULL (here `none`) when no such row exists. Raises `"Query Failed"`
only under `affected_row < 0`. -/
def get_origin_quantity_no (db : Db) (product_option_no : Nat) :
    Except String (Option Nat) :=
  let affected_row :=
    (db.quantities.filter fun q =>
      q.product_option_id == product_option_no && q.close_time == maxTime).length
  if affected_row < 0 then .error "Query Failed"
  else .ok ((db.quantities.find? fun q =>
    q.product_option_id == product_option_no && q.close_time == maxTime).map
    (·.quantity_no))

/-- `OrderDao.insert_quantities`: inserts a new open-ended quantity fact whose
payload is `product_options.current_quantity` read by subquery (already
decremented by the purchase, per the method's own history note); returns
`cursor.lastrowid`. -/
def insert_quantities (db : Db) (product_option_no : Nat) (now : Nat) :
    Db × Except String Nat :=
  let payload :=
    (db.product_options.find? fun po => po.product_option_no == product_option_no).map
      (·.current_quantity)
  let row : Quantity :=
    { quantity_no := db.next_quantity_no
      product_option_id := product_option_no
      quantity := payload
      start_time := now
      close_time := maxTime }
  let affected_row := 1
  let db1 := { db with
    quantities := db.quantities ++ [row]
    next_quantity_no := db.next_quantity_no + 1 }
  if affected_row ≤ 0 then (db1, .error "QUERY_FAILED") else (db1, .ok db.next_quantity_no)

/-- `OrderDao.get_quantity_start_time`: the `start_time` of a quantity row by
key (the Python indexes the fetched row, so an absent row is modelled `none`). -/
def get_quantity_start_time (db : Db) (quantity_no : Nat) : Option Nat :=
  (db.quantities.find? fun q => q.quantity_no == quantity_no).map (·.start_time)

/-- The row returned by `OrderDao.select_product_info`. -/
structure ProductInfoRow where
  original_price : Option Int
  discount_rate : Int
deriving Repr, DecidableEq

/-- The discount CASE of `select_product_info` / `get_seller_product_info`
(reference time `NOW()`) and of `get_detail` (reference time the order's
`start_time`), evaluated on possibly-NULL columns:
rate NULL gives 0; else start NULL gives the rate; else the rate when the
reference time is BETWEEN start and end, else 0. -/
def discount_rate_case (discount_rate : Option Int) (discount_start_date : Option Nat)
    (discount_end_date : Option Nat) (ref : Nat) : Int :=
  match discount_rate with
  | none => 0
  | some r =>
    match discount_start_date with
    | none => r
    | some s => if sqlBetween ref (some s) discount_end_date then r else 0

/-- `OrderDao.select_product_info`: LEFT JOINs the open-ended, activated,
displayed `product_details` fact onto the non-deleted product row; `fetchone`
is `None` (hence the `THIS_PRODUCT_DOES_NOT_EXISTS` raise) exactly when the
product row itself is absent, while a missing detail fact leaves the joined
columns NULL. The discount CASE reads `NOW()`, passed as `now`. -/
def select_product_info (db : Db) (now : Nat) (product_id : Nat) :
    Except String ProductInfoRow :=
  match db.products.find? fun p => p.is_deleted == false && p.product_no == product_id with
  | none => .error "THIS_PRODUCT_DOES_NOT_EXISTS"
  | some p =>
    let pd := db.product_details.find? fun d =>
      d.product_id == p.product_no && d.is_activated && d.is_displayed
        && d.close_time == maxTime
    .ok { original_price := pd.map (·.price)
          discount_rate := discount_rate_case (pd.bind (·.discount_rate))
            (pd.bind (·.discount_start_date)) (pd.bind (·.discount_end_date)) now }

/-- The temporal join condition of `get_detail` (and of
`get_ordercompleted_list` / `get_total_num`) on `product_details`:
`P5.product_id = P7.product_id AND P1.start_time >= P7.start_time AND
P7.close_time >= P1.start_time` — both interval ends inclusive. -/
def get_detail_matches (order_start : Nat) (product_id : Nat) (pd : ProductDetail) : Bool :=
  pd.product_id == product_id && pd.start_time ≤ order_start && order_start ≤ pd.close_time

/-- The discount CASE of `get_detail`, whose reference time is
`P1.start_time`, the order's own start time (`NOW()` does not occur). -/
def get_detail_discount_rate (order_start : Nat) (pd : ProductDetail) : Int :=
  match pd.discount_rate with
  | none => 0
  | some r =>
    match pd.discount_start_date with
    | none => r
    | some s => if sqlBetween order_start (some s) pd.discount_end_date then r else 0

/-- The columns of the `get_detail` row that the temporal/pricing logic
produces (display-only name columns are omitted, see `get_detail`). -/
structure DetailRow where
  order_detail_no : Nat
  order_time : Nat
  total_price : Int
  original_price : Int
  quantity : Int
  discount_rate : Int
deriving Repr, DecidableEq

/-- `OrderDao.get_detail`: the order-detail row joined through `order_product`
and `product_options` to the `product_details` fact valid at the order's
`start_time`, with the discount CASE evaluated at that same `start_time`.
The pure name-lookup INNER JOINs of the SQL (orders, users, colors, sizes,
order_status, shipping row) only add display columns and are not modelled. -/
def get_detail (db : Db) (order_detail_no : Nat) : Option DetailRow :=
  match db.orders_details.find? fun od => od.order_detail_no == order_detail_no with
  | none => none
  | some od =>
    match db.order_product.find? fun op => op.order_detail_id == od.order_detail_no with
    | none => none
    | some op =>
      match db.product_options.find? fun po =>
          po.product_option_no == op.product_option_id with
      | none => none
      | some po =>
        match db.product_details.find? (get_detail_matches od.start_time po.product_id) with
        | none => none
        | some pd =>
          some { order_detail_no := od.order_detail_no
                 order_time := od.start_time
                 total_price := od.total_price
                 original_price := pd.price
                 quantity := op.quantity
                 discount_rate := get_detail_discount_rate od.start_time pd }

/-- `OrderDao.select_user_shipping_details_info`: the user's shipping row, if
any. -/
def select_user_shipping_details_info (db : Db) (user_no : Nat) :
    Option UserShippingDetail :=
  db.user_shipping_details.find? fun usd => usd.user_id == user_no

/-- `OrderDao.insert_user_shipping_details_info`: inserts one shipping row
from the submitted fields; the one INSERT affects one row so the
`<= 0` failure branch is not taken. -/
def insert_user_shipping_details_info (db : Db) (user_no : Nat) (info : ShippingFields) :
    Db × Except String Nat :=
  let row : UserShippingDetail :=
    { user_id := user_no
      receiver := info.receiver
      address := info.address
      additional_address := info.additional_address
      zip_code := info.zip_code
      phone_number := info.phone_number }
  let affected_row := 1
  let db1 := { db with user_shipping_details := db.user_shipping_details ++ [row] }
  if affected_row ≤ 0 then (db1, .error "QUERY_FAILED") else (db1, .ok 1)

/-- `OrderDao.update_user_shipping_details_info`: overwrites the fields of the
rows `WHERE user_id = user_no` in place and returns 1 unconditionally. -/
def update_user_shipping_details_info (db : Db) (user_no : Nat) (info : ShippingFields) :
    Db × Except String Nat :=
  let db1 := { db with
    user_shipping_details := db.user_shipping_details.map fun usd =>
      if usd.user_id == user_no then
        { usd with
          receiver := info.receiver
          address := info.address
          additional_address := info.additional_address
          zip_code := info.zip_code
          phone_number := info.phone_number }
      else usd }
  (db1, .ok 1)

end OrderDao

namespace ProductService

/-- `ProductService.get_product_list`: passes the DAO result through
unchanged. The DAO's `select_product_list` is not among the source files, so
its result is the parameter: `none` models the null/falsy result the
controller observed for an empty catalog, `some rows` a fetched list. -/
def get_product_list {α : Type} (select_product_list_result : Option (List α)) :
    Option (List α) :=
  select_product_list_result

end ProductService

namespace ProductController

/-- The `product_list` endpoint of `service_product_endpoint` (connected-DB
path): fetches the list through the service; a falsy result (Python
`if not products:` — null or empty) answers 200 with an empty data array,
otherwise 200 with the rows unchanged. -/
def product_list {α : Type} (select_product_list_result : Option (List α)) :
    Nat × List α :=
  let products := ProductService.get_product_list select_product_list_result
  match products with
  | none => (200, [])
  | some ps => if ps.isEmpty then (200, []) else (200, ps)

end ProductController

namespace OrderService

/-- Modelled from the spec: the order-placement service that sequences the DAO
calls is not among the source files. Following §4.3, `check_and_reserve` reads
the counter through `OrderDao.get_current_quantity`, compares it with the
requested quantity, and only on success issues the decrement through
`OrderDao.update_current_quantity`; a failed comparison yields the
out-of-stock error with the database untouched. -/
def check_and_reserve (db : Db) (product_option_no : Nat) (requested : Nat) :
    Db × Except String Unit :=
  match OrderDao.get_current_quantity db product_option_no with
  | none => (db, .error "THIS_PRODUCT_DOES_NOT_EXISTS")
  | some current =>
    if (requested : Int) ≤ current then
      match OrderDao.update_current_quantity db product_option_no (requested : Int) with
      | (db1, .ok _) => (db1, .ok ())
      | (db1, .error e) => (db1, .error e)
    else (db, .error "OUT_OF_STOCK")

/-- Modelled from the spec: the ledger half of the reservation (§4.1, §4.3),
sequencing the DAO calls as their doc strings describe — fetch the key of the
currently open-ended quantity fact, insert the new open-ended fact (whose
payload the SQL copies from the already-decremented counter), read the new
fact's `start_time` back, and close the old fact at that `start_time`. -/
def close_reopen_quantity (db : Db) (product_option_no : Nat) (now : Nat) :
    Db × Except String Unit :=
  match OrderDao.get_origin_quantity_no db product_option_no with
  | .error e => (db, .error e)
  | .ok origin =>
    match OrderDao.insert_quantities db product_option_no now with
    | (db1, .error e) => (db1, .error e)
    | (db1, .ok new_quantity_no) =>
      match OrderDao.get_quantity_start_time db1 new_quantity_no with
      | none => (db1, .error "KEY_ERROR")
      | some st =>
        match OrderDao.update_quantities db1 origin st with
        | (db2, .ok _) => (db2, .ok ())
        | (db2, .error e) => (db2, .error e)

/-- Modelled from the spec: one full inventory mutation (§4.3) — the counter
decrement followed by the close/reopen pair on the temporal ledger. -/
def reserve_and_record (db : Db) (product_option_no : Nat) (requested : Nat)
    (now : Nat) : Db × Except String Unit :=
  match check_and_reserve db product_option_no requested with
  | (db1, .error e) => (db1, .error e)
  | (db1, .ok _) => close_reopen_quantity db1 product_option_no now

/-- Modelled from the spec: step 5 of the orchestrator (§4.4) — the shipping
address upsert, branching on `OrderDao.select_user_shipping_details_info` into
the DAO insert or the DAO in-place update. -/
def upsert_user_shipping (db : Db) (user_no : Nat) (info : ShippingFields) : Db :=
  match OrderDao.select_user_shipping_details_info db user_no with
  | none => (OrderDao.insert_user_shipping_details_info db user_no info).1
  | some _ => (OrderDao.update_user_shipping_details_info db user_no info).1

/-- Modelled from the spec: N reservation attempts of 1 unit each executed
serially (each attempt's `check_and_reserve` completes before the next
starts), counting successes and out-of-stock failures. -/
def serial_reserve (db : Db) (product_option_no : Nat) : Nat → Nat × Nat × Db
  | 0 => (0, 0, db)
  | n + 1 =>
    match check_and_reserve db product_option_no 1 with
    | (db1, .ok _) =>
      let r := serial_reserve db1 product_option_no n
      (r.1 + 1, r.2.1, r.2.2)
    | (db1, .error _) =>
      let r := serial_reserve db1 product_option_no n
      (r.1, r.2.1 + 1, r.2.2)

/-- The progress of one reservation attempt in the interleaved model: not yet
started, check done (with its outcome), or finished (successful or
out-of-stock). -/
inductive Phase where
  | ready : Phase
  | checked : Bool → Phase
  | done : Bool → Phase
deriving Repr, DecidableEq

/-- State of several concurrent reservation attempts over one database. -/
structure ResSys where
  db : Db
  phases : List Phase
deriving Repr, DecidableEq

/-- Modelled from the spec: one scheduler step of attempt `i` in the
interleaved execution of §5 — the check reads the counter through
`OrderDao.get_current_quantity`; the decrement, taken only after a successful
check, goes through `OrderDao.update_current_quantity` (whose UPDATE carries
no stock condition). Each SQL statement is one atomic step. -/
def res_step (product_option_no : Nat) (s : ResSys) (i : Nat) : ResSys :=
  match s.phases.get? i with
  | some .ready =>
    let ok := match OrderDao.get_current_quantity s.db product_option_no with
      | some c => decide ((1 : Int) ≤ c)
      | none => false
    { s with phases := s.phases.set i (.checked ok) }
  | some (.checked ok) =>
    if ok then
      { db := (OrderDao.update_current_quantity s.db product_option_no 1).1
        phases := s.phases.set i (.done true) }
    else { s with phases := s.phases.set i (.done false) }
  | _ => s

/-- Runs a schedule (a list of attempt indices) of interleaved reservation
steps. -/
def res_run (product_option_no : Nat) (s : ResSys) (sched : List Nat) : ResSys :=
  sched.foldl (res_step product_option_no) s

/-- Number of attempts that finished successfully. -/
def successCount (s : ResSys) : Nat :=
  (s.phases.filter fun p => p == .done true).length

/-- Number of attempts that finished with the out-of-stock failure. -/
def failureCount (s : ResSys) : Nat :=
  (s.phases.filter fun p => p == .done false).length

end OrderService

/-- A one-option database with the given stock, used to instantiate the
reservation scenarios on concrete inputs. -/
def oneOptionDb (product_option_no : Nat) (stock : Int) : Db :=
  { products := []
    product_details := []
    product_options :=
      [{ product_option_no := product_option_no
         product_id := 1
         color_id := 1
         size_id := 1
         current_quantity := stock
         is_deleted := false }]
    quantities := []
    user_shipping_details := []
    orders_details := []
    order_product := []
    next_quantity_no := 1 }

/-- The empty database. -/
def emptyDb : Db :=
  { products := []
    product_details := []
    product_options := []
    quantities := []
    user_shipping_details := []
    orders_details := []
    order_product := []
    next_quantity_no := 1 }

/-- A database where option 7 exists but its only quantity fact is already
closed (`close_time = 100`), so no open-ended fact remains. -/
def dbNoOpenFact : Db :=
  { emptyDb with
    product_options :=
      [{ product_option_no := 7
         product_id := 1
         color_id := 1
         size_id := 1
         current_quantity := 5
         is_deleted := false }]
    quantities :=
      [{ quantity_no := 1
         product_option_id := 7
         quantity := some 5
         start_time := 0
         close_time := 100 }]
    next_quantity_no := 2 }

/-- A database where product 1 exists (not deleted) but has no active
`product_details` fact at all — a delisted product. -/
def productNoActiveDetailDb : Db :=
  { emptyDb with products := [{ product_no := 1, is_deleted := false }] }

/-- A `product_details` row with neutral payload, adjusted per example. -/
def sampleDetail : ProductDetail :=
  { product_id := 1
    name := "tee"
    price := 10000
    is_activated := true
    is_displayed := true
    start_time := 0
    close_time := maxTime
    discount_rate := none
    discount_start_date := none
    discount_end_date := none
    min_sales_quantity := 1
    max_sales_quantity := 20 }

/-- The discount resolution policy as the spec words it (§4.2), used only to
compare the code's CASE expression against: no rate set gives 0; a rate with
no start/end window always applies; a windowed rate applies exactly when the
reference time lies in `[discount_start, discount_end]` inclusive. Window
shapes the spec does not describe (exactly one bound set) resolve to 0. -/
def specResolveDiscount (pd : ProductDetail) (ref : Nat) : Int :=
  match pd.discount_rate with
  | none => 0
  | some r =>
    match pd.discount_start_date, pd.discount_end_date with
    | none, none => r
    | some s, some e => if s ≤ ref ∧ ref ≤ e then r else 0
    | _, _ => 0

/-- Non-overlap of two price/discount facts of the same product in the
half-open sense of the spec's data model (§3): for one subject, validity
intervals `[start_time, close_time)` never overlap. -/
def nonOverlap (d e : ProductDetail) : Prop :=
  d.product_id = e.product_id →
    d.close_time ≤ e.start_time ∨ e.close_time ≤ d.start_time

/-- A close/reopen chain of two price facts of product 1: the first closed at
time 5, its successor starting at 5 and still open. -/
def twoFactChain : List ProductDetail :=
  [{ sampleDetail with start_time := 0, close_time := 5 },
   { sampleDetail with start_time := 5, close_time := maxTime }]

/-- Two reservation attempts, not yet started, against option 7 with one unit
of stock. -/
def twoAttemptSys : OrderService.ResSys :=
  { db := oneOptionDb 7 1, phases := [.ready, .ready] }

/-- A database holding one completed order (detail 1 placed at time 10 for
option 9 of product 1) and one windowed-discount price fact, for
instantiating `get_detail`. -/
def detailDb : Db :=
  { emptyDb with
    product_details :=
      [{ sampleDetail with
          discount_rate := some 20
          discount_start_date := some 9
          discount_end_date := some 11 }]
    product_options :=
      [{ product_option_no := 9
         product_id := 1
         color_id := 1
         size_id := 1
         current_quantity := 3
         is_deleted := false }]
    orders_details :=
      [{ order_detail_no := 1
         order_id := 1
         start_time := 10
         total_price := 16000
         delivery_request := "" }]
    order_product :=
      [{ order_product_no := 1
         order_detail_id := 1
         product_option_id := 9
         quantity := 2 }] }

/-- A database where user 3 already has a shipping row on file. -/
def shippingDb : Db :=
  { emptyDb with
    user_shipping_details :=
      [{ user_id := 3
         receiver := "old receiver"
         address := "old address"
         additional_address := "old extra"
         zip_code := "00000"
         phone_number := "010-0000-0000" }] }

/-- Submitted shipping fields used in the upsert examples. -/
def sampleShippingFields : ShippingFields :=
  { receiver := "new receiver"
    address := "new address"
    additional_address := "new extra"
    zip_code := "12345"
    phone_number := "010-1234-5678" }

/-- Option 7 with stock 5 and its single open-ended ledger fact, for
instantiating the full inventory mutation. -/
def ledgerDb : Db :=
  { emptyDb with
    product_options :=
      [{ product_option_no := 7
         product_id := 1
         color_id := 1
         size_id := 1
         current_quantity := 5
         is_deleted := false }]
    quantities :=
      [{ quantity_no := 1
         product_option_id := 7
         quantity := some 5
         start_time := 0
         close_time := maxTime }]
    next_quantity_no := 2 }

/-! ## Theorems -/

section Helpers

/-- Mapping a function that leaves a predicate invariant commutes with
`find?`. -/
theorem find?_map_of_pred_inv {α : Type} {f : α → α} {p : α → Bool}
    (h : ∀ a, p (f a) = p a) :
    ∀ l : List α, (l.map f).find? p = (l.find? p).map f := by
  intro l
  induction l with
  | nil => rfl
  | cons a l ih =>
    by_cases hp : p a
    · simp [List.find?_cons, h a, hp]
    · simp only [Bool.not_eq_true] at hp
      simp [List.find?_cons, h a, hp, ih]

/-- Mapping a function that leaves a predicate invariant commutes with
`filter`. -/
theorem filter_map_of_pred_inv {α : Type} {f : α → α} {p : α → Bool}
    (h : ∀ a, p (f a) = p a) :
    ∀ l : List α, (l.map f).filter p = (l.filter p).map f := by
  intro l
  induction l with
  | nil => rfl
  | cons a l ih =>
    by_cases hp : p a
    · simp [List.filter_cons, h a, hp, ih]
    · simp only [Bool.not_eq_true] at hp
      simp [List.filter_cons, h a, hp, ih]

/-- Mapping a function that fixes every member is the identity. -/
theorem map_id_of_forall {α : Type} (f : α → α) :
    ∀ l : List α, (∀ a ∈ l, f a = a) → l.map f = l := by
  intro l h
  induction l with
  | nil => rfl
  | cons a t ih =>
    simp only [List.map_cons, h a (by simp), List.cons.injEq, true_and]
    exact ih fun b hb => h b (by simp [hb])

/-- A list of length at most one containing `a` is `[a]`. -/
theorem eq_singleton_of_length_le_one_of_mem {α : Type} {l : List α} {a : α}
    (h1 : l.length ≤ 1) (h2 : a ∈ l) : l = [a] := by
  cases l with
  | nil => cases h2
  | cons b t =>
    cases t with
    | nil =>
      have hab : a = b := by simpa using h2
      simp [hab]
    | cons c t2 => simp at h1

end Helpers

/-- C10: for every catalog-list request (with the database connected), a
product list resolving to no products — the dao's null result or an empty
row list — is answered with HTTP 200 and an empty data array, and a
non-empty list is answered with HTTP 200 and the rows unchanged. -/
theorem c10_product_list_empty_ok {α : Type} (ps : List α) :
    ProductController.product_list (α := α) none = (200, [])
    ∧ ProductController.product_list (some ([] : List α)) = (200, [])
    ∧ (ps ≠ [] → ProductController.product_list (some ps) = (200, ps)) := by
  refine ⟨rfl, rfl, fun h => ?_⟩
  cases ps with
  | nil => exact absurd rfl h
  | cons a t => rfl

/-- Witness for C10 at a concrete one-element catalog. -/
theorem c10_product_list_empty_ok_witness :
    ProductController.product_list (some [3]) = (200, [3]) :=
  (c10_product_list_empty_ok [3]).2.2 (by decide)

/-- C9: in `update_quantities`, `update_current_quantity` and
`get_origin_quantity_no` the `affected_row < 0` branch is unreachable — the
affected-row count is a natural number — so none of the three ever raises
`"Query Failed"`, and the two updates report success (return 1) even when the
statement matched zero rows, leaving the database unchanged in that case. -/
theorem c9_query_failed_branch_unreachable (db : Db) (origin : Option Nat)
    (st : Nat) (opt : Nat) (q : Int) :
    (OrderDao.update_quantities db origin st).2 = .ok 1
    ∧ (OrderDao.update_current_quantity db opt q).2 = .ok 1
    ∧ (∃ v, OrderDao.get_origin_quantity_no db opt = .ok v)
    ∧ ((db.quantities.filter fun r => origin == some r.quantity_no) = [] →
        OrderDao.update_quantities db origin st = (db, .ok 1))
    ∧ ((db.product_options.filter fun po => po.product_option_no == opt) = [] →
        OrderDao.update_current_quantity db opt q = (db, .ok 1)) := by
  refine ⟨by simp [OrderDao.update_quantities],
    by simp [OrderDao.update_current_quantity],
    ⟨(db.quantities.find? fun r =>
        r.product_option_id == opt && r.close_time == maxTime).map (·.quantity_no),
      by simp [OrderDao.get_origin_quantity_no]⟩, fun h => ?_, fun h => ?_⟩
  · have hall : ∀ r ∈ db.quantities, ¬(origin == some r.quantity_no) = true :=
      List.filter_eq_nil_iff.mp h
    have hmap : db.quantities.map
        (fun r => if origin = some r.quantity_no then { r with close_time := st } else r)
        = db.quantities := by
      apply map_id_of_forall
      intro r hr
      rw [if_neg fun heq => hall r hr (by simp [heq])]
    simp [OrderDao.update_quantities, hmap]
  · have hall : ∀ po ∈ db.product_options, ¬(po.product_option_no == opt) = true :=
      List.filter_eq_nil_iff.mp h
    have hmap : db.product_options.map
        (fun po => if po.product_option_no = opt then
          { po with current_quantity := po.current_quantity - q } else po)
        = db.product_options := by
      apply map_id_of_forall
      intro po hpo
      rw [if_neg fun heq => hall po hpo (by simp [heq])]
    simp [OrderDao.update_current_quantity, hmap]

/-- Witness for C9 at a database in which neither statement matches a row. -/
theorem c9_query_failed_branch_unreachable_witness :
    OrderDao.update_quantities emptyDb none 100 = (emptyDb, .ok 1)
    ∧ OrderDao.update_current_quantity emptyDb 7 1 = (emptyDb, .ok 1) :=
  ⟨(c9_query_failed_branch_unreachable emptyDb none 100 7 1).2.2.2.1 rfl,
    (c9_query_failed_branch_unreachable emptyDb none 100 7 1).2.2.2.2 rfl⟩

/-- C6: evidence of the divergence — closing the open-ended fact of option 7,
which has none (its only ledger row is already closed), reports success
instead of raising: `get_origin_quantity_no` quietly returns a NULL key, and
the close statement matches zero rows yet `update_quantities` returns 1 with
the database unchanged. The comment over the branch says an error should be
sent when nothing changed, but the code tests `affected_row < 0`. -/
theorem c6_close_without_open_fact_reports_success :
    OrderDao.get_origin_quantity_no dbNoOpenFact 7 = .ok none
    ∧ (OrderDao.update_quantities dbNoOpenFact none 200).2 = .ok 1
    ∧ (OrderDao.update_quantities dbNoOpenFact none 200).1 = dbNoOpenFact := by
  refine ⟨rfl, rfl, by decide⟩

/-- C7 counterexample: product 1 exists (not soft-deleted) but has no active
`product_details` fact — it is delisted — yet `select_product_info` does not
raise the product-unavailable error: it returns a success row with NULL
price and discount 0. -/
theorem c7_counterexample_delisted_product_returns_row :
    OrderDao.select_product_info productNoActiveDetailDb 0 1
      = .ok { original_price := none, discount_rate := 0 } := by
  rfl

/-- C7 amended: the `THIS_PRODUCT_DOES_NOT_EXISTS` error is raised exactly
when the `products` row itself is absent or soft-deleted; when the product row
exists but no activated, displayed, open-ended `product_details` fact does,
the lookup succeeds with `original_price` NULL and `discount_rate` 0 instead
of signalling unavailability. -/
theorem c7_unavailable_only_when_product_row_missing (db : Db) (now : Nat)
    (product_id : Nat) :
    (db.products.find? (fun p => p.is_deleted == false && p.product_no == product_id)
        = none →
      OrderDao.select_product_info db now product_id
        = .error "THIS_PRODUCT_DOES_NOT_EXISTS")
    ∧ (∀ p, db.products.find?
          (fun p => p.is_deleted == false && p.product_no == product_id) = some p →
        db.product_details.find? (fun d => d.product_id == p.product_no
          && d.is_activated && d.is_displayed && d.close_time == maxTime) = none →
        OrderDao.select_product_info db now product_id
          = .ok { original_price := none, discount_rate := 0 }) := by
  constructor
  · intro h
    simp only [OrderDao.select_product_info, h]
  · intro p hp hd
    simp only [OrderDao.select_product_info, hp, hd, Option.map_none', Option.bind,
      OrderDao.discount_rate_case]

/-- Witness for C7's amended statement: the error case on the empty catalog
and the null-price case on the delisted product. -/
theorem c7_unavailable_only_when_product_row_missing_witness :
    OrderDao.select_product_info emptyDb 0 1 = .error "THIS_PRODUCT_DOES_NOT_EXISTS"
    ∧ OrderDao.select_product_info productNoActiveDetailDb 5 1
        = .ok { original_price := none, discount_rate := 0 } :=
  ⟨(c7_unavailable_only_when_product_row_missing emptyDb 0 1).1 rfl,
    (c7_unavailable_only_when_product_row_missing productNoActiveDetailDb 5 1).2
      { product_no := 1, is_deleted := false } (by decide) rfl⟩

/-- C1: the reservation first verifies `current_quantity >= requested` and
only then decrements; when the check fails it stops with the out-of-stock
error and the database is left exactly as it was, and when it passes the
counter becomes `current - requested`, which cannot be below zero. -/
theorem c1_check_and_reserve_guarded (db : Db) (opt requested : Nat) (current : Int)
    (hcur : OrderDao.get_current_quantity db opt = some current) :
    (current < (requested : Int) →
      OrderService.check_and_reserve db opt requested = (db, .error "OUT_OF_STOCK"))
    ∧ ((requested : Int) ≤ current →
      (OrderService.check_and_reserve db opt requested).2 = .ok ()
      ∧ OrderDao.get_current_quantity
          (OrderService.check_and_reserve db opt requested).1 opt
          = some (current - requested)
      ∧ 0 ≤ current - (requested : Int)
      ∧ ((OrderService.check_and_reserve db opt requested).1.product_options.filter
            fun po => po.product_option_no != opt)
          = db.product_options.filter (fun po => po.product_option_no != opt)
      ∧ (OrderService.check_and_reserve db opt requested).1.quantities = db.quantities
      ∧ (OrderService.check_and_reserve db opt requested).1.user_shipping_details
          = db.user_shipping_details
      ∧ (OrderService.check_and_reserve db opt requested).1.orders_details
          = db.orders_details
      ∧ (OrderService.check_and_reserve db opt requested).1.order_product
          = db.order_product) := by
  constructor
  · intro hlt
    have hnle : ¬((requested : Int) ≤ current) := not_le.mpr hlt
    simp [OrderService.check_and_reserve, hcur, hnle]
  · intro hge
    have hres : OrderService.check_and_reserve db opt requested
        = ((OrderDao.update_current_quantity db opt (requested : Int)).1, .ok ()) := by
      simp [OrderService.check_and_reserve, hcur, hge, OrderDao.update_current_quantity]
    have hdb1 : (OrderDao.update_current_quantity db opt (requested : Int)).1
        = { db with product_options := db.product_options.map fun po =>
            if po.product_option_no = opt then
              { po with current_quantity := po.current_quantity - (requested : Int) }
            else po } := by
      simp [OrderDao.update_current_quantity]
    obtain ⟨row, hrow, hrowq⟩ := Option.map_eq_some'.mp hcur
    have hrowp := List.find?_some hrow
    have hkey : row.product_option_no = opt := by
      have := (Bool.and_eq_true _ _).mp hrowp
      simpa using this.1
    have hpredinv : ∀ po : ProductOption,
        ((fun po : ProductOption =>
          po.product_option_no == opt && po.is_deleted == false)
         (if po.product_option_no = opt then
            { po with current_quantity := po.current_quantity - (requested : Int) }
          else po))
        = (po.product_option_no == opt && po.is_deleted == false) := by
      intro po
      by_cases hk : po.product_option_no = opt <;> simp [hk]
    refine ⟨by rw [hres], ?_, by omega, ?_, by rw [hres, hdb1], by rw [hres, hdb1],
      by rw [hres, hdb1], by rw [hres, hdb1]⟩
    · rw [hres, hdb1]
      show (((db.product_options.map fun po =>
          if po.product_option_no = opt then
            { po with current_quantity := po.current_quantity - (requested : Int) }
          else po).find? fun po =>
            po.product_option_no == opt && po.is_deleted == false).map
          (·.current_quantity)) = some (current - requested)
      rw [find?_map_of_pred_inv hpredinv, hrow]
      simp [hkey, hrowq]
    · rw [hres, hdb1]
      show ((db.product_options.map fun po =>
          if po.product_option_no = opt then
            { po with current_quantity := po.current_quantity - (requested : Int) }
          else po).filter fun po => po.product_option_no != opt)
          = db.product_options.filter fun po => po.product_option_no != opt
      have hpred2 : ∀ po : ProductOption,
          ((fun po : ProductOption => po.product_option_no != opt)
           (if po.product_option_no = opt then
              { po with current_quantity := po.current_quantity - (requested : Int) }
            else po))
          = (po.product_option_no != opt) := by
        intro po
        by_cases hk : po.product_option_no = opt <;> simp [hk]
      rw [filter_map_of_pred_inv hpred2]
      apply map_id_of_forall
      intro po hpo
      have := List.of_mem_filter hpo
      rw [if_neg (by simpa using this)]

/-- Witness for C1: stock 5, request 3 succeeds leaving counter 2; stock 5,
request 9 fails out-of-stock leaving the database untouched. -/
theorem c1_check_and_reserve_guarded_witness :
    OrderService.check_and_reserve (oneOptionDb 7 5) 7 9
      = (oneOptionDb 7 5, .error "OUT_OF_STOCK")
    ∧ (OrderService.check_and_reserve (oneOptionDb 7 5) 7 3).2 = .ok ()
    ∧ OrderDao.get_current_quantity
        (OrderService.check_and_reserve (oneOptionDb 7 5) 7 3).1 7 = some 2 :=
  ⟨(c1_check_and_reserve_guarded (oneOptionDb 7 5) 7 9 5 (by decide)).1 (by decide),
    ((c1_check_and_reserve_guarded (oneOptionDb 7 5) 7 3 5 (by decide)).2 (by decide)).1,
    ((c1_check_and_reserve_guarded (oneOptionDb 7 5) 7 3 5 (by decide)).2 (by decide)).2.1⟩

/-- C2: the discount CASE of the code equals the spec's three-way rule — no
rate gives 0, a rate without a window always applies, a windowed rate applies
exactly on `[discount_start, discount_end]` inclusive — for every well-formed
window (an end date is only set together with a start date); and when
`get_detail` re-resolves a past order's discount, the reference time it feeds
to that rule is the order's own `start_time` carried in the returned row
(`NOW()` does not occur in the query). -/
theorem c2_discount_three_way_rule :
    (∀ (pd : ProductDetail) (ref : Nat),
      (pd.discount_start_date = none → pd.discount_end_date = none) →
      OrderDao.get_detail_discount_rate ref pd = specResolveDiscount pd ref)
    ∧ (∀ (db : Db) (n : Nat) (row : OrderDao.DetailRow),
        OrderDao.get_detail db n = some row →
        ∃ (pid : Nat) (pd : ProductDetail),
          db.product_details.find? (OrderDao.get_detail_matches row.order_time pid)
            = some pd
          ∧ row.discount_rate = OrderDao.get_detail_discount_rate row.order_time pd) := by
  constructor
  · intro pd ref hwf
    cases hr : pd.discount_rate with
    | none => simp [OrderDao.get_detail_discount_rate, specResolveDiscount, hr]
    | some r =>
      cases hs : pd.discount_start_date with
      | none =>
        simp [OrderDao.get_detail_discount_rate, specResolveDiscount, hr, hs, hwf hs]
      | some s =>
        cases he : pd.discount_end_date with
        | none =>
          simp [OrderDao.get_detail_discount_rate, specResolveDiscount, sqlBetween,
            hr, hs, he]
        | some e =>
          simp [OrderDao.get_detail_discount_rate, specResolveDiscount, sqlBetween,
            hr, hs, he, and_assoc]
  · intro db n row h
    simp only [OrderDao.get_detail] at h
    cases hod : db.orders_details.find? fun od => od.order_detail_no == n with
    | none => simp only [hod] at h; exact Option.noConfusion h
    | some od =>
      simp only [hod] at h
      cases hop : db.order_product.find? fun op => op.order_detail_id == od.order_detail_no with
      | none => simp only [hop] at h; exact Option.noConfusion h
      | some op =>
        simp only [hop] at h
        cases hpo : db.product_options.find? fun po =>
            po.product_option_no == op.product_option_id with
        | none => simp only [hpo] at h; exact Option.noConfusion h
        | some po =>
          simp only [hpo] at h
          cases hpd : db.product_details.find?
              (OrderDao.get_detail_matches od.start_time po.product_id) with
          | none => simp only [hpd] at h; exact Option.noConfusion h
          | some pd =>
            simp only [hpd, Option.some.injEq] at h
            subst h
            exact ⟨po.product_id, pd, hpd, rfl⟩

/-- Witness for C2: the windowed rate 20 applies at the order's start time 10
inside the window `[9, 11]`, both for the rule equivalence and through
`get_detail` on a concrete order. -/
theorem c2_discount_three_way_rule_witness :
    OrderDao.get_detail_discount_rate 10
        { sampleDetail with
            discount_rate := some 20
            discount_start_date := some 9
            discount_end_date := some 11 }
      = specResolveDiscount
        { sampleDetail with
            discount_rate := some 20
            discount_start_date := some 9
            discount_end_date := some 11 } 10
    ∧ ∃ (pid : Nat) (pd : ProductDetail),
        detailDb.product_details.find?
            (OrderDao.get_detail_matches
              (OrderDao.DetailRow.order_time
                { order_detail_no := 1, order_time := 10, total_price := 16000,
                  original_price := 10000, quantity := 2, discount_rate := 20 }) pid)
          = some pd
        ∧ OrderDao.DetailRow.discount_rate
            { order_detail_no := 1, order_time := 10, total_price := 16000,
              original_price := 10000, quantity := 2, discount_rate := 20 }
          = OrderDao.get_detail_discount_rate 10 pd :=
  ⟨c2_discount_three_way_rule.1
      { sampleDetail with
          discount_rate := some 20
          discount_start_date := some 9
          discount_end_date := some 11 } 10 (by simp),
    c2_discount_three_way_rule.2 detailDb 1
      { order_detail_no := 1, order_time := 10, total_price := 16000,
        original_price := 10000, quantity := 2, discount_rate := 20 } (by decide)⟩

/-- C5 counterexample: at reference time 5 — the first fact's `close_time`,
which is also its successor's `start_time` — the temporal join condition of
`get_detail` matches BOTH facts of a perfectly well-formed close/reopen chain,
so the historical-order join does not select exactly one detail row; moreover
the first matched fact's half-open interval `[0, 5)` does not contain 5, so
the join is not the half-open resolution the claim states. -/
theorem c5_counterexample_boundary_matches_two_facts :
    (twoFactChain.filter (OrderDao.get_detail_matches 5 1)).length = 2
    ∧ twoFactChain.Pairwise nonOverlap
    ∧ ¬((twoFactChain.filter (OrderDao.get_detail_matches 5 1)).length ≤ 1)
    ∧ OrderDao.get_detail_matches 5 1
        { sampleDetail with start_time := 0, close_time := 5 } = true
    ∧ ¬(5 < ProductDetail.close_time
        { sampleDetail with start_time := 0, close_time := 5 }) := by
  refine ⟨by decide, ?_, by decide, by decide, by decide⟩
  constructor
  · intro e he
    intro _
    simp only [twoFactChain, List.mem_singleton] at he
    subst he
    left
    decide
  · simp [twoFactChain]

/-- C5 amended: the join condition of `get_detail` (shared by
`get_ordercompleted_list`) matches the facts whose CLOSED interval
`[start_time, close_time]` contains the reference time; under the
no-overlap invariant, any reference time that differs from every fact's
`close_time` matches at most one row — only at a boundary instant equal to a
fact's `close_time` (the successor's `start_time`) can two rows match. -/
theorem c5_temporal_join_closed_interval (ds : List ProductDetail) (pid : Nat)
    (t : Nat) (hpw : ds.Pairwise nonOverlap)
    (ht : ∀ d ∈ ds, t ≠ d.close_time) :
    (ds.filter (OrderDao.get_detail_matches t pid)).length ≤ 1
    ∧ ∀ d : ProductDetail, OrderDao.get_detail_matches t pid d = true ↔
        (d.product_id = pid ∧ d.start_time ≤ t ∧ t ≤ d.close_time) := by
  refine ⟨?_, ?_⟩
  · induction ds with
    | nil => simp
    | cons d tl ih =>
      obtain ⟨hd, htl⟩ := List.pairwise_cons.mp hpw
      have htl2 : ∀ e ∈ tl, t ≠ e.close_time :=
        fun e he => ht e (List.mem_cons_of_mem _ he)
      by_cases hm : OrderDao.get_detail_matches t pid d = true
      · rw [List.filter_cons_of_pos hm]
        have hnil : tl.filter (OrderDao.get_detail_matches t pid) = [] := by
          apply List.filter_eq_nil_iff.mpr
          intro e he hme
          have h1 : d.product_id = pid ∧ d.start_time ≤ t ∧ t ≤ d.close_time := by
            simpa [OrderDao.get_detail_matches, and_assoc] using hm
          have h2 : e.product_id = pid ∧ e.start_time ≤ t ∧ t ≤ e.close_time := by
            simpa [OrderDao.get_detail_matches, and_assoc] using hme
          obtain ⟨hp1, hs1, hc1⟩ := h1
          obtain ⟨hp2, hs2, hc2⟩ := h2
          have hde : d.product_id = e.product_id := by rw [hp1, hp2]
          have htd : t ≠ d.close_time := ht d (List.mem_cons_self _ _)
          have hte : t ≠ e.close_time := htl2 e he
          rcases hd e he hde with hc | hc
          · omega
          · omega
        rw [hnil]
        simp
      · rw [List.filter_cons_of_neg hm]
        exact ih htl htl2
  · intro d
    simp [OrderDao.get_detail_matches, and_assoc]

/-- Witness for C5's amended statement: away from the boundary (time 3) the
same chain matches at most one fact. -/
theorem c5_temporal_join_closed_interval_witness :
    (twoFactChain.filter (OrderDao.get_detail_matches 3 1)).length ≤ 1
    ∧ (OrderDao.get_detail_matches 3 1
        { sampleDetail with start_time := 0, close_time := 5 } = true ↔
      (ProductDetail.product_id { sampleDetail with start_time := 0, close_time := 5 } = 1
        ∧ ProductDetail.start_time { sampleDetail with start_time := 0, close_time := 5 } ≤ 3
        ∧ 3 ≤ ProductDetail.close_time
            { sampleDetail with start_time := 0, close_time := 5 })) :=
  ⟨(c5_temporal_join_closed_interval twoFactChain 1 3
      (c5_counterexample_boundary_matches_two_facts.2.1) (by decide)).1,
    (c5_temporal_join_closed_interval twoFactChain 1 3
      (c5_counterexample_boundary_matches_two_facts.2.1) (by decide)).2
      { sampleDetail with start_time := 0, close_time := 5 }⟩

/-- C4 counterexample: two attempts against one unit of stock, interleaved so
that both checks run before either decrement (schedule 0,1,0,1): BOTH succeed
and the counter ends at -1, because the UPDATE decrements unconditionally —
not "exactly S succeed" and not a final counter of 0. -/
theorem c4_counterexample_interleaving_oversells :
    OrderService.successCount (OrderService.res_run 7 twoAttemptSys [0, 1, 0, 1]) = 2
    ∧ OrderDao.get_current_quantity
        (OrderService.res_run 7 twoAttemptSys [0, 1, 0, 1]).db 7 = some (-1)
    ∧ ¬(OrderService.successCount (OrderService.res_run 7 twoAttemptSys [0, 1, 0, 1]) = 1
        ∧ OrderService.failureCount (OrderService.res_run 7 twoAttemptSys [0, 1, 0, 1]) = 1
        ∧ OrderDao.get_current_quantity
            (OrderService.res_run 7 twoAttemptSys [0, 1, 0, 1]).db 7 = some 0) := by
  refine ⟨by decide, by decide, by decide⟩

/-- C4 amended: when the N attempts (1 unit each, stock S ≤ N) execute
serially — each attempt's check-and-decrement completing before the next
starts — exactly S succeed, N−S fail with the out-of-stock error, and the
final counter is 0. (Interleaved attempts are not safe: the decrement carries
no stock condition, see the counterexample.) -/
theorem c4_serial_reserve_exact (opt : Nat) :
    ∀ (N S : Nat) (db : Db) (po : ProductOption),
      db.product_options = [po] → po.product_option_no = opt →
      po.is_deleted = false → po.current_quantity = (S : Int) → S ≤ N →
      ∃ db2 : Db, OrderService.serial_reserve db opt N = (S, N - S, db2)
        ∧ OrderDao.get_current_quantity db2 opt = some 0 := by
  intro N
  induction N with
  | zero =>
    intro S db po hdb hkey hdel hq hSN
    have hS0 : S = 0 := Nat.le_zero.mp hSN
    subst hS0
    refine ⟨db, rfl, ?_⟩
    simp [OrderDao.get_current_quantity, hdb, List.find?, hkey, hdel, hq]
  | succ n ih =>
    intro S db po hdb hkey hdel hq hSN
    have hcur : OrderDao.get_current_quantity db opt = some ((S : Int)) := by
      simp [OrderDao.get_current_quantity, hdb, List.find?, hkey, hdel, hq]
    cases S with
    | zero =>
      have hstep : OrderService.check_and_reserve db opt 1 = (db, .error "OUT_OF_STOCK") := by
        simp [OrderService.check_and_reserve, hcur]
      obtain ⟨db2, h1, h2⟩ := ih 0 db po hdb hkey hdel (by rw [hq]) (Nat.zero_le n)
      refine ⟨db2, ?_, h2⟩
      simp [OrderService.serial_reserve, hstep, h1]
    | succ s =>
      have hge : ((1 : Nat) : Int) ≤ (((s + 1 : Nat)) : Int) := by
        push_cast
        omega
      have hupfull : OrderDao.update_current_quantity db opt ((1 : Nat) : Int)
          = ({ db with product_options :=
              [{ po with current_quantity := po.current_quantity - ((1 : Nat) : Int) }] },
             .ok 1) := by
        simp [OrderDao.update_current_quantity, hdb, hkey]
      have hstep : OrderService.check_and_reserve db opt 1
          = ({ db with product_options :=
              [{ po with current_quantity := po.current_quantity - ((1 : Nat) : Int) }] },
             .ok ()) := by
        simp only [OrderService.check_and_reserve, hcur]
        rw [if_pos hge, hupfull]
      obtain ⟨db2, h1, h2⟩ := ih s
        { db with product_options :=
            [{ po with current_quantity := po.current_quantity - ((1 : Nat) : Int) }] }
        { po with current_quantity := po.current_quantity - ((1 : Nat) : Int) }
        rfl hkey hdel (by rw [hq]; push_cast; ring) (by omega)
      refine ⟨db2, ?_, h2⟩
      simp only [OrderService.serial_reserve, hstep, h1]
      simp [Nat.succ_sub_succ]

/-- Witness for C4's amended statement: three serial attempts against stock 2
give exactly 2 successes, 1 failure, final counter 0. -/
theorem c4_serial_reserve_exact_witness :
    ∃ db2 : Db, OrderService.serial_reserve (oneOptionDb 7 2) 7 3 = (2, 1, db2)
      ∧ OrderDao.get_current_quantity db2 7 = some 0 :=
  c4_serial_reserve_exact 7 3 2 (oneOptionDb 7 2)
    { product_option_no := 7, product_id := 1, color_id := 1, size_id := 1,
      current_quantity := 2, is_deleted := false }
    rfl rfl rfl rfl (by omega)

/-- C8: the upsert keeps at most one shipping row per user — starting from a
store with at most one row for the user, placing an order leaves exactly one
row for that user, holding precisely the submitted fields (inserted when none
was on file, overwritten in place otherwise), while rows of other users and
every other table are untouched. -/
theorem c8_shipping_upsert_single_row (db : Db) (u : Nat) (info : ShippingFields)
    (h : (db.user_shipping_details.filter fun r => r.user_id == u).length ≤ 1) :
    ((OrderService.upsert_user_shipping db u info).user_shipping_details.filter
        fun r => r.user_id == u)
      = [{ user_id := u, receiver := info.receiver, address := info.address,
           additional_address := info.additional_address, zip_code := info.zip_code,
           phone_number := info.phone_number }]
    ∧ ((OrderService.upsert_user_shipping db u info).user_shipping_details.filter
        fun r => r.user_id != u)
      = db.user_shipping_details.filter (fun r => r.user_id != u)
    ∧ (OrderService.upsert_user_shipping db u info).products = db.products
    ∧ (OrderService.upsert_user_shipping db u info).product_options = db.product_options
    ∧ (OrderService.upsert_user_shipping db u info).quantities = db.quantities
    ∧ (OrderService.upsert_user_shipping db u info).orders_details = db.orders_details := by
  cases hfind : db.user_shipping_details.find? fun usd => usd.user_id == u with
  | none =>
    have hups : OrderService.upsert_user_shipping db u info
        = { db with user_shipping_details := db.user_shipping_details ++
            [{ user_id := u, receiver := info.receiver, address := info.address,
               additional_address := info.additional_address, zip_code := info.zip_code,
               phone_number := info.phone_number }] } := by
      simp [OrderService.upsert_user_shipping, OrderDao.select_user_shipping_details_info,
        hfind, OrderDao.insert_user_shipping_details_info]
    have hnone : ∀ r ∈ db.user_shipping_details, ¬(r.user_id == u) = true :=
      List.find?_eq_none.mp hfind
    have hnil : db.user_shipping_details.filter (fun r => r.user_id == u) = [] :=
      List.filter_eq_nil_iff.mpr hnone
    refine ⟨?_, ?_, by rw [hups], by rw [hups], by rw [hups], by rw [hups]⟩
    · rw [hups]
      show (db.user_shipping_details ++ _).filter (fun r => r.user_id == u) = _
      rw [List.filter_append, hnil]
      simp
    · rw [hups]
      show (db.user_shipping_details ++ _).filter (fun r => r.user_id != u) = _
      rw [List.filter_append]
      simp
  | some r0 =>
    have hp0 := List.find?_some hfind
    have hr0 : r0.user_id = u := by simpa using hp0
    have hups : OrderService.upsert_user_shipping db u info
        = { db with user_shipping_details := db.user_shipping_details.map fun usd =>
            if usd.user_id = u then
              { usd with
                receiver := info.receiver
                address := info.address
                additional_address := info.additional_address
                zip_code := info.zip_code
                phone_number := info.phone_number }
            else usd } := by
      simp [OrderService.upsert_user_shipping, OrderDao.select_user_shipping_details_info,
        hfind, OrderDao.update_user_shipping_details_info]
    have hmem : r0 ∈ db.user_shipping_details.filter fun r => r.user_id == u :=
      List.mem_filter.mpr ⟨List.mem_of_find?_eq_some hfind, hp0⟩
    have hsingle : db.user_shipping_details.filter (fun r => r.user_id == u) = [r0] :=
      eq_singleton_of_length_le_one_of_mem h hmem
    have hpred1 : ∀ usd : UserShippingDetail,
        ((fun r : UserShippingDetail => r.user_id == u)
          (if usd.user_id = u then
            { usd with
              receiver := info.receiver
              address := info.address
              additional_address := info.additional_address
              zip_code := info.zip_code
              phone_number := info.phone_number }
          else usd))
        = (usd.user_id == u) := by
      intro usd
      by_cases hk : usd.user_id = u <;> simp [hk]
    have hpred2 : ∀ usd : UserShippingDetail,
        ((fun r : UserShippingDetail => r.user_id != u)
          (if usd.user_id = u then
            { usd with
              receiver := info.receiver
              address := info.address
              additional_address := info.additional_address
              zip_code := info.zip_code
              phone_number := info.phone_number }
          else usd))
        = (usd.user_id != u) := by
      intro usd
      by_cases hk : usd.user_id = u <;> simp [hk]
    refine ⟨?_, ?_, by rw [hups], by rw [hups], by rw [hups], by rw [hups]⟩
    · rw [hups]
      show ((db.user_shipping_details.map fun usd =>
          if usd.user_id = u then
            { usd with
              receiver := info.receiver
              address := info.address
              additional_address := info.additional_address
              zip_code := info.zip_code
              phone_number := info.phone_number }
          else usd).filter fun r => r.user_id == u) = _
      rw [filter_map_of_pred_inv hpred1, hsingle]
      simp [hr0]
    · rw [hups]
      show ((db.user_shipping_details.map fun usd =>
          if usd.user_id = u then
            { usd with
              receiver := info.receiver
              address := info.address
              additional_address := info.additional_address
              zip_code := info.zip_code
              phone_number := info.phone_number }
          else usd).filter fun r => r.user_id != u) = _
      rw [filter_map_of_pred_inv hpred2]
      apply map_id_of_forall
      intro usd husd
      have := List.of_mem_filter husd
      rw [if_neg (by simpa using this)]

/-- Witness for C8: inserting for a user with no row on file and overwriting
for a user with one both end with exactly the submitted row. -/
theorem c8_shipping_upsert_single_row_witness :
    ((OrderService.upsert_user_shipping emptyDb 3 sampleShippingFields).user_shipping_details.filter
        fun r => r.user_id == 3)
      = [{ user_id := 3, receiver := sampleShippingFields.receiver,
           address := sampleShippingFields.address,
           additional_address := sampleShippingFields.additional_address,
           zip_code := sampleShippingFields.zip_code,
           phone_number := sampleShippingFields.phone_number }]
    ∧ ((OrderService.upsert_user_shipping shippingDb 3 sampleShippingFields).user_shipping_details.filter
        fun r => r.user_id == 3)
      = [{ user_id := 3, receiver := sampleShippingFields.receiver,
           address := sampleShippingFields.address,
           additional_address := sampleShippingFields.additional_address,
           zip_code := sampleShippingFields.zip_code,
           phone_number := sampleShippingFields.phone_number }] :=
  ⟨(c8_shipping_upsert_single_row emptyDb 3 sampleShippingFields (by decide)).1,
    (c8_shipping_upsert_single_row shippingDb 3 sampleShippingFields (by decide)).1⟩


/-- `find?` skips a prefix in which nothing matches. -/
theorem find?_append_left_none {α : Type} {p : α → Bool} {l1 l2 : List α}
    (h : l1.find? p = none) : (l1 ++ l2).find? p = l2.find? p := by
  induction l1 with
  | nil => rfl
  | cons a t ih =>
    by_cases hpa : p a = true
    · rw [List.find?_cons_of_pos _ hpa] at h
      exact absurd h (by simp)
    · rw [List.find?_cons_of_neg _ hpa] at h
      rw [List.cons_append, List.find?_cons_of_neg _ hpa]
      exact ih h

/-- C3: after one full inventory mutation — counter decrement, close of the
old open-ended quantity fact, insert of the new one — the option has exactly
one open-ended quantity fact again, and its payload equals the materialized
`current_quantity` (the counter read back by the INSERT's subquery after the
decrement). Hypotheses: a single option row for the key, at most one open fact
beforehand, a fresh auto-increment key, and a present time below the
sentinel. -/
theorem c3_counter_matches_open_fact (db : Db) (opt q now : Nat) (po : ProductOption)
    (hdb : db.product_options = [po]) (hkey : po.product_option_no = opt)
    (hdel : po.is_deleted = false) (hq : (q : Int) ≤ po.current_quantity)
    (hfresh : ∀ r ∈ db.quantities, r.quantity_no < db.next_quantity_no)
    (hopen : (db.quantities.filter fun r =>
        r.product_option_id == opt && r.close_time == maxTime).length ≤ 1)
    (hnow : now < maxTime) :
    ∃ db3 : Db,
      OrderService.reserve_and_record db opt q now = (db3, .ok ())
      ∧ OrderDao.get_current_quantity db3 opt = some (po.current_quantity - q)
      ∧ (db3.quantities.filter fun r =>
          r.product_option_id == opt && r.close_time == maxTime)
        = [{ quantity_no := db.next_quantity_no
             product_option_id := opt
             quantity := some (po.current_quantity - q)
             start_time := now
             close_time := maxTime }] := by
  have hcur : OrderDao.get_current_quantity db opt = some po.current_quantity := by
    simp [OrderDao.get_current_quantity, hdb, List.find?, hkey, hdel]
  set poA : ProductOption :=
    { po with current_quantity := po.current_quantity - (q : Int) } with hpoA
  set dbA : Db := { db with product_options := [poA] } with hdbA
  set newRow : Quantity :=
    { quantity_no := db.next_quantity_no
      product_option_id := opt
      quantity := some (po.current_quantity - (q : Int))
      start_time := now
      close_time := maxTime } with hnewRow
  set dbB : Db := { dbA with
    quantities := db.quantities ++ [newRow]
    next_quantity_no := db.next_quantity_no + 1 } with hdbB
  set origin : Option Nat := (db.quantities.find? fun r =>
    r.product_option_id == opt && r.close_time == maxTime).map (·.quantity_no)
    with horigindef
  set closeFn : Quantity → Quantity := fun r =>
    if origin = some r.quantity_no then { r with close_time := now } else r
    with hcloseFn
  set db3 : Db := { dbB with
    quantities := (db.quantities ++ [newRow]).map closeFn } with hdb3
  have hupfull : OrderDao.update_current_quantity db opt (q : Int) = (dbA, .ok 1) := by
    rw [hdbA, hpoA]
    simp [OrderDao.update_current_quantity, hdb, hkey]
  have hstep1 : OrderService.check_and_reserve db opt q = (dbA, .ok ()) := by
    simp only [OrderService.check_and_reserve, hcur]
    rw [if_pos hq, hupfull]
  have horigin : OrderDao.get_origin_quantity_no dbA opt = .ok origin := by
    rw [horigindef, hdbA]
    simp [OrderDao.get_origin_quantity_no]
  have hins : OrderDao.insert_quantities dbA opt now
      = (dbB, .ok db.next_quantity_no) := by
    rw [hdbB, hdbA, hnewRow, hpoA]
    simp [OrderDao.insert_quantities, List.find?, hkey]
  have hnonefind : db.quantities.find?
      (fun r => r.quantity_no == db.next_quantity_no) = none := by
    apply List.find?_eq_none.mpr
    intro r hr
    have := hfresh r hr
    simp
    omega
  have hst : OrderDao.get_quantity_start_time dbB db.next_quantity_no = some now := by
    rw [hdbB, hdbA]
    show ((db.quantities ++ [newRow]).find?
        (fun r => r.quantity_no == db.next_quantity_no)).map (·.start_time) = some now
    rw [find?_append_left_none hnonefind, hnewRow]
    simp [List.find?]
  have hupd : OrderDao.update_quantities dbB origin now = (db3, .ok 1) := by
    rw [hdb3, hdbB, hdbA]
    simp only [OrderDao.update_quantities]
    rw [hcloseFn]
    simp
  have hstep2 : OrderService.close_reopen_quantity dbA opt now = (db3, .ok ()) := by
    simp only [OrderService.close_reopen_quantity, horigin, hins, hst, hupd]
  refine ⟨db3, ?_, ?_, ?_⟩
  · simp only [OrderService.reserve_and_record, hstep1, hstep2]
  · rw [hdb3, hdbB, hdbA, hpoA]
    simp [OrderDao.get_current_quantity, List.find?, hkey, hdel]
  · have hquant3 : db3.quantities = (db.quantities ++ [newRow]).map closeFn := by
      rw [hdb3]
    rw [hquant3, List.map_append, List.filter_append]
    have hmaxne : now ≠ maxTime := Nat.ne_of_lt hnow
    have h1 : ((db.quantities.map closeFn).filter
        (fun r => r.product_option_id == opt && r.close_time == maxTime)) = [] := by
      apply List.filter_eq_nil_iff.mpr
      intro x hx
      obtain ⟨r, hr, rfl⟩ := List.mem_map.mp hx
      by_cases hcond : origin = some r.quantity_no
      · rw [hcloseFn]
        simp only [if_pos hcond]
        simp [hmaxne]
      · rw [hcloseFn]
        simp only [if_neg hcond]
        intro hopenr
        rw [horigindef] at hcond
        cases hfind : db.quantities.find? fun r2 =>
            r2.product_option_id == opt && r2.close_time == maxTime with
        | none =>
          have := List.find?_eq_none.mp hfind r hr
          exact this hopenr
        | some q0 =>
          have hq0p := List.find?_some hfind
          have hq0mem : q0 ∈ db.quantities.filter (fun r2 =>
              r2.product_option_id == opt && r2.close_time == maxTime) :=
            List.mem_filter.mpr ⟨List.mem_of_find?_eq_some hfind, hq0p⟩
          have hfq : (db.quantities.filter fun r2 =>
              r2.product_option_id == opt && r2.close_time == maxTime) = [q0] :=
            eq_singleton_of_length_le_one_of_mem hopen hq0mem
          have hrmem : r ∈ db.quantities.filter (fun r2 =>
              r2.product_option_id == opt && r2.close_time == maxTime) :=
            List.mem_filter.mpr ⟨hr, hopenr⟩
          rw [hfq] at hrmem
          have hrq0 : r = q0 := by simpa using hrmem
          apply hcond
          rw [hfind, hrq0]
          rfl
    have hnotnew : ¬(origin = some newRow.quantity_no) := by
      rw [horigindef, hnewRow]
      cases hfind : db.quantities.find? fun r2 =>
          r2.product_option_id == opt && r2.close_time == maxTime with
      | none => simp
      | some q0 =>
        have hmem := List.mem_of_find?_eq_some hfind
        have := hfresh q0 hmem
        simp
        omega
    have h2 : (([newRow].map closeFn).filter
        (fun r => r.product_option_id == opt && r.close_time == maxTime)) = [newRow] := by
      rw [hcloseFn]
      simp only [List.map_cons, List.map_nil, if_neg hnotnew]
      rw [hnewRow]
      simp
    rw [h1, h2, hnewRow]
    rfl

/-- Witness for C3: reserving 2 units of option 7 (stock 5, one open fact of
payload 5) ends with counter 3 and a single open fact of payload 3. -/
theorem c3_counter_matches_open_fact_witness :
    ∃ db3 : Db,
      OrderService.reserve_and_record ledgerDb 7 2 40 = (db3, .ok ())
      ∧ OrderDao.get_current_quantity db3 7 = some 3
      ∧ (db3.quantities.filter fun r =>
          r.product_option_id == 7 && r.close_time == maxTime)
        = [{ quantity_no := 2
             product_option_id := 7
             quantity := some 3
             start_time := 40
             close_time := maxTime }] :=
  c3_counter_matches_open_fact ledgerDb 7 2 40
    { product_option_no := 7, product_id := 1, color_id := 1, size_id := 1,
      current_quantity := 5, is_deleted := false }
    rfl rfl rfl (by decide) (by decide) (by decide) (by decide)
